import Mathlib

/-!
Verification of the Tapir transformation-pipeline specification against
`llvm/lib/Transforms/Tapir/Tapir.cpp` (the registration surface of
libLLVMTapirOpts) and, for the pipeline internals not present in that file,
against models built from the specification's component contracts.
-/

namespace Tapir

/-! ## Registration surface, embedded from `Tapir.cpp` -/

/-- The passes of the Tapir pipeline, one constructor per
`initialize*Pass` call in `initializeTapirOpts` (Tapir.cpp lines 29-36). -/
inductive Pass where
  | LoopSpawning
  | LoopSpawningTI
  | LowerTapirToTarget
  | AnalyzeTapir
  | TaskSimplify
  | DRFScopedNoAliasWrapperPass
  | LoopStripMine
  | SerializeSmallTasks
deriving DecidableEq

/-- A pass registry: the list of passes initialized with it, in
registration order. -/
abbrev PassRegistry := List Pass

/-- Registering one pass with a registry. -/
def registerPass (p : Pass) (r : PassRegistry) : PassRegistry := r ++ [p]

def initializeLoopSpawningPass (r : PassRegistry) : PassRegistry :=
  registerPass .LoopSpawning r

def initializeLoopSpawningTIPass (r : PassRegistry) : PassRegistry :=
  registerPass .LoopSpawningTI r

def initializeLowerTapirToTargetPass (r : PassRegistry) : PassRegistry :=
  registerPass .LowerTapirToTarget r

def initializeAnalyzeTapirPass (r : PassRegistry) : PassRegistry :=
  registerPass .AnalyzeTapir r

def initializeTaskSimplifyPass (r : PassRegistry) : PassRegistry :=
  registerPass .TaskSimplify r

def initializeDRFScopedNoAliasWrapperPassPass (r : PassRegistry) : PassRegistry :=
  registerPass .DRFScopedNoAliasWrapperPass r

def initializeLoopStripMinePass (r : PassRegistry) : PassRegistry :=
  registerPass .LoopStripMine r

def initializeSerializeSmallTasksPass (r : PassRegistry) : PassRegistry :=
  registerPass .SerializeSmallTasks r

/-- Embedding of `llvm::initializeTapirOpts` (Tapir.cpp lines 28-37): the
eight `initialize*Pass` calls, threaded through the registry in
source order. -/
def initializeTapirOpts (Registry : PassRegistry) : PassRegistry :=
  initializeSerializeSmallTasksPass
    (initializeLoopStripMinePass
      (initializeDRFScopedNoAliasWrapperPassPass
        (initializeTaskSimplifyPass
          (initializeAnalyzeTapirPass
            (initializeLowerTapirToTargetPass
              (initializeLoopSpawningTIPass
                (initializeLoopSpawningPass Registry)))))))

/-- An `LLVMPassRegistryRef`: the C-ABI wrapper around a pass registry;
`unwrap` recovers the underlying registry. -/
structure LLVMPassRegistryRef where
  unwrap : PassRegistry

/-- Embedding of `LLVMInitializeTapirOpts` (Tapir.cpp lines 39-41):
unwraps the registry reference and calls `initializeTapirOpts`. -/
def LLVMInitializeTapirOpts (R : LLVMPassRegistryRef) : PassRegistry :=
  initializeTapirOpts R.unwrap

/-- A legacy pass manager: the list of pass instances added to it, in order. -/
structure PassManager where
  passes : List Pass
deriving DecidableEq

/-- Embedding of `PassManagerBase::add`: appends one pass instance. -/
def PassManager.add (pm : PassManager) (p : Pass) : PassManager :=
  ⟨pm.passes ++ [p]⟩

/-- Factory for the Lowering-to-Target pass (`createLowerTapirToTargetPass`). -/
def createLowerTapirToTargetPass : Pass := .LowerTapirToTarget

/-- Factory for the target-informed Loop Spawning pass
(`createLoopSpawningTIPass`). -/
def createLoopSpawningTIPass : Pass := .LoopSpawningTI

/-- Embedding of `LLVMAddLowerTapirToTargetPass` (Tapir.cpp lines 43-46). -/
def LLVMAddLowerTapirToTargetPass (PM : PassManager) : PassManager :=
  PM.add createLowerTapirToTargetPass

/-- Embedding of `LLVMAddLoopSpawningPass` (Tapir.cpp lines 48-51): note the
body calls `createLoopSpawningTIPass`, the target-informed variant. -/
def LLVMAddLoopSpawningPass (PM : PassManager) : PassManager :=
  PM.add createLoopSpawningTIPass

/-- The C-linkage pass-adding entry points exported by Tapir.cpp, indexed by
the pass each one adds: the file defines exactly two such wrappers,
`LLVMAddLowerTapirToTargetPass` (adds the Lowering-to-Target pass) and
`LLVMAddLoopSpawningPass` (adds the target-informed Loop Spawning pass).
Every other pass of the pipeline has no pass-adding C wrapper in the file. -/
def cAddWrapper : Pass → Option (PassManager → PassManager)
  | .LowerTapirToTarget => some LLVMAddLowerTapirToTargetPass
  | .LoopSpawningTI => some LLVMAddLoopSpawningPass
  | _ => none

/-! ## Theorems on the registration surface -/

/-- C3: `initializeTapirOpts` registers every pass of the pipeline — both
Loop Spawning strategies, Lowering to Target, Task Analysis/Reporting
(AnalyzeTapir), Task Simplification, DRF Scoped No-Alias Annotation, Loop
Strip-Mining, and Small-Task Serialization — with the registry passed to it. -/
theorem initializeTapirOpts_registers_all (r : PassRegistry) (p : Pass) :
    p ∈ initializeTapirOpts r := by
  cases p <;>
    simp [initializeTapirOpts, initializeLoopSpawningPass,
      initializeLoopSpawningTIPass, initializeLowerTapirToTargetPass,
      initializeAnalyzeTapirPass, initializeTaskSimplifyPass,
      initializeDRFScopedNoAliasWrapperPassPass, initializeLoopStripMinePass,
      initializeSerializeSmallTasksPass, registerPass]

/-- C5 counterexample: the Task Simplification pass has no C-linkage
pass-adding entry point in Tapir.cpp, refuting the claim that every
component of the pipeline has one. -/
theorem no_cAddWrapper_for_TaskSimplify :
    cAddWrapper Pass.TaskSimplify = none := rfl

/-- C5 (amended): C-linkage pass-adding entry points exist only for Lowering
to Target and (target-informed) Loop Spawning; each call to such a wrapper
adds exactly one pass instance to the given pass manager. -/
theorem cAddWrapper_adds_exactly_one (PM : PassManager) (p : Pass)
    (w : PassManager → PassManager) (h : cAddWrapper p = some w) :
    (w PM).passes.length = PM.passes.length + 1 ∧
      (p = Pass.LowerTapirToTarget ∨ p = Pass.LoopSpawningTI) := by
  cases p <;> simp_all [cAddWrapper] <;>
    simp [← h, LLVMAddLowerTapirToTargetPass, LLVMAddLoopSpawningPass,
      PassManager.add]

/-- C5 witness: the Lowering-to-Target wrapper, applied to the empty pass
manager, adds exactly one pass instance. -/
theorem cAddWrapper_adds_exactly_one_witness :
    (LLVMAddLowerTapirToTargetPass (PassManager.mk [])).passes.length =
        (PassManager.mk ([] : List Pass)).passes.length + 1 ∧
      (Pass.LowerTapirToTarget = Pass.LowerTapirToTarget ∨
        Pass.LowerTapirToTarget = Pass.LoopSpawningTI) :=
  cAddWrapper_adds_exactly_one (PassManager.mk []) Pass.LowerTapirToTarget
    LLVMAddLowerTapirToTargetPass rfl

/-- C9: `LLVMAddLoopSpawningPass` adds the target-informed Loop Spawning
pass — not the direct variant — even though `initializeTapirOpts` registers
both variants with the registry. -/
theorem LLVMAddLoopSpawningPass_adds_TI (PM : PassManager) (r : PassRegistry) :
    (LLVMAddLoopSpawningPass PM).passes = PM.passes ++ [Pass.LoopSpawningTI] ∧
      Pass.LoopSpawningTI ≠ Pass.LoopSpawning ∧
      Pass.LoopSpawning ∈ initializeTapirOpts r ∧
      Pass.LoopSpawningTI ∈ initializeTapirOpts r := by
  refine ⟨rfl, by simp, ?_, ?_⟩ <;>
    simp [initializeTapirOpts, initializeLoopSpawningPass,
      initializeLoopSpawningTIPass, initializeLowerTapirToTargetPass,
      initializeAnalyzeTapirPass, initializeTaskSimplifyPass,
      initializeDRFScopedNoAliasWrapperPassPass, initializeLoopStripMinePass,
      initializeSerializeSmallTasksPass, registerPass]

/-- C10: the C-ABI wrapper `LLVMInitializeTapirOpts` registers exactly the
same passes as `initializeTapirOpts` applied to the unwrapped registry: the
resulting registries are equal, hence contain the same passes. -/
theorem LLVMInitializeTapirOpts_equiv (R : LLVMPassRegistryRef) :
    LLVMInitializeTapirOpts R = initializeTapirOpts R.unwrap ∧
      ∀ p : Pass, p ∈ LLVMInitializeTapirOpts R ↔ p ∈ initializeTapirOpts R.unwrap := by
  exact ⟨rfl, fun p => Iff.rfl⟩

/-! ## Task-region IR, modelled from the spec

The pipeline internals (Task Analysis, Task Simplification, Lowering to
Target, Spawn Sites) are not part of `Tapir.cpp`; the definitions below are
modelled from the specification's data model and component contracts. -/

/-- Modelled from the spec: the function IR instruction alphabet the pipeline
operates on — the Task Region constructs (detach, reattach, sync, each naming
its region) plus ordinary control flow (branch), runtime calls and plain
computation, standing in for the rest of the host IR. -/
inductive Instr where
  | detach (region : Nat)
  | reattach (region : Nat)
  | sync (region : Nat)
  | branch (target : Nat)
  | call (fn : Nat)
  | compute (op : Nat)
deriving DecidableEq

/-- A module (compilation unit): its instruction sequence. -/
abbrev Module := List Instr

/-- Whether an instruction is one of the Task Region constructs
(detach, reattach, sync). -/
def Instr.isTaskConstruct : Instr → Bool
  | .detach _ => true
  | .reattach _ => true
  | .sync _ => true
  | _ => false

/-- Modelled from the spec: the Task Tree — the nesting forest of Task
Regions within a function, each node carrying its region and the subtrees of
the regions nested inside it. -/
inductive TaskTree where
  | node (region : Nat) (children : List TaskTree)

/-- Modelled from the spec: the diagnosable error Task Analysis reports when
a detach/reattach is found without a structurally valid match, carrying the
offending instruction's location. -/
inductive AnalysisError where
  | malformedNesting (location : Nat)
deriving DecidableEq

/-- Modelled from the spec: the worker of Task Analysis. Walks the
instruction list keeping a stack of open detached regions (each with the
children collected so far, newest first) and the completed root trees
(newest first); a reattach must match the innermost open detach, and any
mismatch — or a detach left open at the end — is a malformed-nesting
error at that location. -/
def analyzeGo : List Instr → Nat → List (Nat × List TaskTree) → List TaskTree →
    Except AnalysisError (List TaskTree)
  | [], _, [], roots => .ok roots.reverse
  | [], idx, _ :: _, _ => .error (.malformedNesting idx)
  | .detach r :: rest, idx, stk, roots =>
      analyzeGo rest (idx + 1) ((r, []) :: stk) roots
  | .reattach r :: rest, idx, stk, roots =>
      match stk with
      | [] => .error (.malformedNesting idx)
      | (r', cs) :: stk' =>
          if r = r' then
            match stk' with
            | [] => analyzeGo rest (idx + 1) [] (TaskTree.node r' cs.reverse :: roots)
            | (r2, cs2) :: stk2 =>
                analyzeGo rest (idx + 1)
                  ((r2, TaskTree.node r' cs.reverse :: cs2) :: stk2) roots
          else .error (.malformedNesting idx)
  | .sync _ :: rest, idx, stk, roots => analyzeGo rest (idx + 1) stk roots
  | .branch _ :: rest, idx, stk, roots => analyzeGo rest (idx + 1) stk roots
  | .call _ :: rest, idx, stk, roots => analyzeGo rest (idx + 1) stk roots
  | .compute _ :: rest, idx, stk, roots => analyzeGo rest (idx + 1) stk roots

/-- Modelled from the spec: Task Analysis — given a function's IR, produce
the Task Tree, or report a malformed-nesting error; no side effects. -/
def analyzeTapir (m : Module) : Except AnalysisError (List TaskTree) :=
  analyzeGo m 0 [] []

/-- Running Task Analysis as a pass: it returns its query result together
with the module, which it does not mutate (pure query pass). -/
def analyzeTapirPass (m : Module) :
    Except AnalysisError (List TaskTree) × Module :=
  (analyzeTapir m, m)

/-- Modelled from the spec: the Parallel Runtime ABI Descriptor — the
runtime entry points lowering emits calls to (spawn and join primitives);
`none` selects the serial fallback. -/
structure TapirTarget where
  spawnFn : Nat
  syncFn : Nat
deriving DecidableEq

/-- Modelled from the spec: Lowering to Target on one instruction — each
Task Region construct is rewritten into concrete control flow plus calls
into the runtime ABI, or into purely sequential control flow when no ABI is
configured; non-task instructions pass through. -/
def lowerInstr (target : Option TapirTarget) : Instr → List Instr
  | .detach r =>
      match target with
      | some t => [.call t.spawnFn, .branch r]
      | none => [.branch r]
  | .reattach r => [.branch r]
  | .sync r =>
      match target with
      | some t => [.call t.syncFn]
      | none => [.branch r]
  | .branch t => [.branch t]
  | .call f => [.call f]
  | .compute op => [.compute op]

/-- Modelled from the spec: Lowering to Target over a module — every
remaining Task Region construct is rewritten. -/
def lowerTapirToTarget (target : Option TapirTarget) (m : Module) : Module :=
  m.flatMap (lowerInstr target)

/-- Modelled from the spec: the external IR verifier, a black-box structural
well-formedness check — every reattach must close the innermost open detach
and no detach may be left open; instructions that are not Task Region
constructs are structurally unconstrained. -/
def checkNesting : List Instr → List Nat → Bool
  | [], stk => stk.isEmpty
  | .detach r :: rest, stk => checkNesting rest (r :: stk)
  | .reattach r :: rest, stk =>
      match stk with
      | [] => false
      | r' :: stk' => r == r' && checkNesting rest stk'
  | .sync _ :: rest, stk => checkNesting rest stk
  | .branch _ :: rest, stk => checkNesting rest stk
  | .call _ :: rest, stk => checkNesting rest stk
  | .compute _ :: rest, stk => checkNesting rest stk

/-- The verifier applied to a module (empty nesting context at entry). -/
def verifier (m : Module) : Bool := checkNesting m []

/-- Modelled from the spec: the pipeline for one compilation unit. Task
Analysis runs first; a malformed-nesting error stops the pipeline before any
destructive rewrite, surfacing the error to the caller with the module
unchanged; otherwise the transformation runs, ending with Lowering to
Target. -/
def runPipeline (target : Option TapirTarget) (m : Module) :
    Module × Option AnalysisError :=
  match analyzeTapir m with
  | .error e => (m, some e)
  | .ok _ => (lowerTapirToTarget target m, none)

/-! ## Spawn Sites, modelled from the spec -/

/-- Modelled from the spec: the per-Spawn-Site lowering marker, a tagged
variant {Pending, Lowered}. -/
inductive SiteState where
  | Pending
  | Lowered
deriving DecidableEq

/-- Modelled from the spec: a Spawn Site — the spot that becomes a task
boundary, carrying its originating Task Region and whether it has already
been lowered. -/
structure SpawnSite where
  region : Nat
  state : SiteState
deriving DecidableEq

/-- Modelled from the spec: the programming-error-class faults of the
pipeline; double lowering of a Spawn Site is fatal, not recoverable. -/
inductive Fault where
  | doubleLowering
deriving DecidableEq

/-- Modelled from the spec: Lowering to Target consuming one Spawn Site —
a pending site is marked lowered; attempting to lower an already-lowered
site is the fatal double-lowering fault. -/
def lowerSite (s : SpawnSite) : Except Fault SpawnSite :=
  match s.state with
  | .Lowered => .error .doubleLowering
  | .Pending => .ok { s with state := .Lowered }

/-! ## Task Simplification, modelled from the spec -/

/-- Modelled from the spec: a Task Region as Task Simplification sees it —
the straight-line instructions of its body (as opcodes), the regions nested
inside it, the values escaping its detach/reattach boundary, and its
reattach points (as labels). -/
inductive Region where
  | mk (body : List Nat) (children : List Region) (escapes : List Nat)
      (reattaches : List Nat)

/-- The body instructions of a region. -/
def Region.body : Region → List Nat
  | .mk b _ _ _ => b

/-- The regions nested inside a region. -/
def Region.children : Region → List Region
  | .mk _ cs _ _ => cs

/-- The values escaping a region's detach/reattach boundary. -/
def Region.escapes : Region → List Nat
  | .mk _ _ es _ => es

/-- The reattach points of a region. -/
def Region.reattaches : Region → List Nat
  | .mk _ _ _ rs => rs

/-- Whether a region has an empty body and nothing nested: such regions are
removed outright by Task Simplification. -/
def Region.isEmptyRegion : Region → Bool
  | .mk b cs _ _ => b.isEmpty && cs.isEmpty

/-- Whether a region is serial-equivalent: it spawns nothing (no nested
regions) and nothing of value escapes it, so running it inline in its parent
is equivalent and Task Simplification merges it into the parent. -/
def Region.serialEquivalent : Region → Bool
  | .mk _ cs es _ => cs.isEmpty && es.isEmpty

mutual

/-- Modelled from the spec: Task Simplification on one region. The nested
regions are canonicalized bottom-up — regions with empty bodies are
removed, a serial-equivalent child (one that spawns nothing of value) is
merged into this region's body — and the region's reattach points are
normalized to a single reattach (the modelled bodies are straight-line, so
control flow always allows the normalization). -/
def simplifyRegion : Region → Region
  | .mk b cs es rs =>
      .mk (b ++ (simplifyChildren cs).1) (simplifyChildren cs).2 es (rs.take 1)

/-- Task Simplification over sibling regions: each child is simplified;
empty children are removed, serial-equivalent children are merged (their
bodies collected, in order, for the parent), and the remaining children are
kept. Returns the merged bodies together with the kept children. -/
def simplifyChildren : List Region → List Nat × List Region
  | [] => ([], [])
  | c :: cs =>
      if (simplifyRegion c).isEmptyRegion then simplifyChildren cs
      else if (simplifyRegion c).serialEquivalent then
        ((simplifyRegion c).body ++ (simplifyChildren cs).1,
          (simplifyChildren cs).2)
      else ((simplifyChildren cs).1, simplifyRegion c :: (simplifyChildren cs).2)

end

/-- Modelled from the spec: Task Simplification applied to one function IR —
the function root (its top-level code and Task Regions) is canonicalized. -/
def taskSimplify (f : Region) : Region := simplifyRegion f

/-! ## Loop Spawning and serial-fallback lowering, modelled from the spec -/

/-- Memory state: a map from addresses to values. -/
abbrev Mem := Nat → Nat

/-- Modelled from the spec: direct sequential execution of a loop body over
the iterations lo, lo+1, ..., lo+n-1 (statically known trip count n). -/
def seqRun (body : Nat → Mem → Mem) : Nat → Nat → Mem → Mem
  | _, 0, m => m
  | lo, n + 1, m => seqRun body (lo + 1) n (body lo m)

/-- Modelled from the spec: the task-spawn structure Loop Spawning produces —
a spawned subcomputation together with its continuation, a single iteration,
or nothing. -/
inductive SpawnTree where
  | empty
  | iter (i : Nat)
  | spawn (child cont : SpawnTree)

/-- Modelled from the spec: Loop Spawning on a parallel loop with statically
known bounds — recursive binary splitting (divide and conquer) of the
iteration range [lo, lo+n): the first half is spawned, the second half is
its continuation. -/
def loopSpawning (lo n : Nat) : SpawnTree :=
  if h : n = 0 then .empty
  else if h1 : n = 1 then .iter lo
  else .spawn (loopSpawning lo (n / 2)) (loopSpawning (lo + n / 2) (n - n / 2))
termination_by n
decreasing_by
  · omega
  · omega

/-- Modelled from the spec: Lowering to Target with the serial-fallback ABI —
each spawn becomes purely sequential control flow in which the spawned child
runs to completion before its continuation, yielding a flat iteration
sequence. -/
def serialLower : SpawnTree → List Nat
  | .empty => []
  | .iter i => [i]
  | .spawn c k => serialLower c ++ serialLower k

/-- Execution of the lowered straight-line code: run the loop body at each
listed iteration in sequence. -/
def execSeq (body : Nat → Mem → Mem) (is : List Nat) (m : Mem) : Mem :=
  is.foldl (fun m i => body i m) m

/-! ## Theorems on the modelled pipeline -/

/-- Helper: a sibling list whose members are all fixed points of
simplification, none empty and none serial-equivalent, is left untouched by
`simplifyChildren` — nothing is merged and everything is kept. -/
theorem simplifyChildren_fixed (l : List Region)
    (h : ∀ k ∈ l, simplifyRegion k = k ∧ k.isEmptyRegion = false ∧
      k.serialEquivalent = false) :
    simplifyChildren l = ([], l) := by
  induction l with
  | nil => rfl
  | cons k l ih =>
      obtain ⟨hk, hke, hks⟩ := h k (by simp)
      have hrest := ih (fun k2 hk2 => h k2 (by simp [hk2]))
      simp [simplifyChildren, hk, hke, hks, hrest]

mutual

/-- Helper: mutual idempotence of region simplification, region case — the
children kept by the first pass are fixed points, so the second pass merges
nothing, removes nothing, and the reattach normalization is stable. -/
theorem simplifyRegion_idem_aux :
    (r : Region) → simplifyRegion (simplifyRegion r) = simplifyRegion r
  | .mk b cs es rs => by
      have hfix := simplifyChildren_fixed (simplifyChildren cs).2
        (simplifyChildren_kept_aux cs)
      simp only [simplifyRegion, hfix]
      simp [List.take_take]

/-- Helper: every child kept by `simplifyChildren` is a fixed point of
simplification and is neither empty nor serial-equivalent. -/
theorem simplifyChildren_kept_aux :
    (cs : List Region) → ∀ k ∈ (simplifyChildren cs).2,
      simplifyRegion k = k ∧ k.isEmptyRegion = false ∧
        k.serialEquivalent = false
  | [] => by simp [simplifyChildren]
  | c :: cs => by
      intro k hk
      cases h1 : (simplifyRegion c).isEmptyRegion with
      | true =>
          simp only [simplifyChildren, h1] at hk
          simp at hk
          exact simplifyChildren_kept_aux cs k hk
      | false =>
          cases h2 : (simplifyRegion c).serialEquivalent with
          | true =>
              simp only [simplifyChildren, h1, h2] at hk
              simp at hk
              exact simplifyChildren_kept_aux cs k hk
          | false =>
              simp only [simplifyChildren, h1, h2] at hk
              simp at hk
              rcases hk with hk | hk
              · subst hk
                exact ⟨simplifyRegion_idem_aux c, h1, h2⟩
              · exact simplifyChildren_kept_aux cs k hk

end

/-- C7: Task Simplification is idempotent — applying it a second time to the
output of a first application produces no further change. -/
theorem taskSimplify_idempotent (f : Region) :
    taskSimplify (taskSimplify f) = taskSimplify f := by
  simp [taskSimplify, simplifyRegion_idem_aux f]

/-- Helper: executing an appended iteration sequence runs the prefix first. -/
theorem execSeq_append (body : Nat → Mem → Mem) (xs ys : List Nat) (m : Mem) :
    execSeq body (xs ++ ys) m = execSeq body ys (execSeq body xs m) := by
  simp [execSeq, List.foldl_append]

/-- Helper: sequential execution over a split trip count composes. -/
theorem seqRun_add (body : Nat → Mem → Mem) (a b lo : Nat) (m : Mem) :
    seqRun body lo (a + b) m = seqRun body (lo + a) b (seqRun body lo a m) := by
  induction a generalizing lo m with
  | zero => simp [seqRun]
  | succ a ih =>
      have h1 : a + 1 + b = (a + b) + 1 := by omega
      rw [h1, seqRun, seqRun, ih (lo + 1) (body lo m)]
      have h2 : lo + 1 + a = lo + (a + 1) := by omega
      rw [h2]

/-- C4: for every parallel loop with statically known bounds, Loop Spawning
followed by Lowering to Target with the serial-fallback ABI produces code
whose execution yields a final memory state identical to direct sequential
execution of the original loop. -/
theorem loopSpawning_serial_equiv (body : Nat → Mem → Mem) (lo n : Nat) (m : Mem) :
    execSeq body (serialLower (loopSpawning lo n)) m = seqRun body lo n m := by
  induction n using Nat.strong_induction_on generalizing lo m with
  | _ n ih =>
      rw [loopSpawning]
      by_cases h : n = 0
      · subst h
        simp [serialLower, execSeq, seqRun]
      · by_cases h1 : n = 1
        · subst h1
          simp [serialLower, execSeq, seqRun]
        · rw [dif_neg h, dif_neg h1]
          have e1 := ih (n / 2) (by omega) lo m
          have e2 := ih (n - n / 2) (by omega) (lo + n / 2)
            (seqRun body lo (n / 2) m)
          have e3 := seqRun_add body (n / 2) (n - n / 2) lo m
          have hn : n / 2 + (n - n / 2) = n := by omega
          rw [serialLower, execSeq_append, e1, e2, ← e3, hn]

/-- Helper: every instruction emitted by `lowerInstr` is free of Task Region
constructs. -/
theorem lowerInstr_no_task (target : Option TapirTarget) (i : Instr) :
    ∀ j ∈ lowerInstr target i, j.isTaskConstruct = false := by
  cases i <;> cases target <;>
    simp [lowerInstr, Instr.isTaskConstruct]

/-- Helper: on a list with no Task Region constructs, the nesting check just
reports whether the ambient nesting context is closed. -/
theorem checkNesting_of_no_task (l : List Instr) (stk : List Nat)
    (h : ∀ i ∈ l, i.isTaskConstruct = false) :
    checkNesting l stk = stk.isEmpty := by
  induction l generalizing stk with
  | nil => rfl
  | cons i rest ih =>
      cases i <;> simp_all [Instr.isTaskConstruct, checkNesting]

/-- C2: for every well-formed input module, after Lowering to Target zero
Task Region constructs remain in the IR and the verifier accepts the
result. -/
theorem lowerTapirToTarget_postcondition (target : Option TapirTarget)
    (m : Module) (h : verifier m = true) :
    (lowerTapirToTarget target m).countP (fun i => i.isTaskConstruct) = 0 ∧
      verifier (lowerTapirToTarget target m) = true := by
  have hall : ∀ j ∈ lowerTapirToTarget target m, j.isTaskConstruct = false := by
    intro j hj
    rw [lowerTapirToTarget, List.mem_flatMap] at hj
    obtain ⟨i, _, hji⟩ := hj
    exact lowerInstr_no_task target i j hji
  constructor
  · rw [List.countP_eq_zero]
    intro a ha
    simp [hall a ha]
  · rw [verifier, checkNesting_of_no_task _ _ hall]
    rfl

/-- C2 witness: a concrete well-formed module with a detached region and a
sync, lowered with the serial fallback. -/
theorem lowerTapirToTarget_postcondition_witness :
    (lowerTapirToTarget none
        [Instr.detach 0, Instr.compute 5, Instr.reattach 0, Instr.sync 0]).countP
          (fun i => i.isTaskConstruct) = 0 ∧
      verifier (lowerTapirToTarget none
        [Instr.detach 0, Instr.compute 5, Instr.reattach 0, Instr.sync 0]) = true :=
  lowerTapirToTarget_postcondition none
    [Instr.detach 0, Instr.compute 5, Instr.reattach 0, Instr.sync 0] (by decide)

/-- C6: whenever Task Analysis reports a malformed-nesting error, the
pipeline for the current compilation unit stops with that error surfaced to
the caller and the module returned unchanged — no destructive rewrite is
applied and the IR is not repaired. -/
theorem taskAnalysis_error_stops_pipeline (target : Option TapirTarget)
    (m : Module) (e : AnalysisError) (h : analyzeTapir m = Except.error e) :
    runPipeline target m = (m, some e) := by
  simp [runPipeline, h]

/-- C6 witness: a module with an unmatched reattach stops the pipeline at
location 0 with the module unchanged. -/
theorem taskAnalysis_error_stops_pipeline_witness :
    runPipeline none [Instr.reattach 0] =
      ([Instr.reattach 0], some (AnalysisError.malformedNesting 0)) :=
  taskAnalysis_error_stops_pipeline none [Instr.reattach 0]
    (AnalysisError.malformedNesting 0) rfl

/-- C8: Task Analysis is deterministic and side-effect free — run as a pass
it leaves the module unmutated, and a second run on the module produced by
the first yields an identical analysis result. -/
theorem taskAnalysis_deterministic (m : Module) :
    (analyzeTapirPass m).2 = m ∧
      (analyzeTapirPass (analyzeTapirPass m).2).1 = (analyzeTapirPass m).1 :=
  ⟨rfl, rfl⟩

/-- C1: a Spawn Site's lowered marker transitions Pending to Lowered exactly
once — lowering a pending site succeeds and marks it lowered, any further
attempt on the result is the fatal double-lowering fault, and lowering a
site whose marker is already set is that same fatal fault. -/
theorem spawnSite_lowered_exactly_once (s : SpawnSite) :
    (s.state = SiteState.Pending →
      lowerSite s = Except.ok { s with state := SiteState.Lowered } ∧
      ∀ s', lowerSite s = Except.ok s' →
        lowerSite s' = Except.error Fault.doubleLowering) ∧
    (s.state = SiteState.Lowered →
      lowerSite s = Except.error Fault.doubleLowering) := by
  obtain ⟨r, st⟩ := s
  cases st <;> simp_all [lowerSite]

/-- C1 witness: a concrete pending Spawn Site is lowered once, and the
already-lowered site faults. -/
theorem spawnSite_lowered_exactly_once_witness :
    lowerSite ⟨0, SiteState.Pending⟩ =
        Except.ok (⟨0, SiteState.Lowered⟩ : SpawnSite) ∧
      lowerSite ⟨0, SiteState.Lowered⟩ = Except.error Fault.doubleLowering :=
  ⟨((spawnSite_lowered_exactly_once ⟨0, SiteState.Pending⟩).1 rfl).1,
    (spawnSite_lowered_exactly_once ⟨0, SiteState.Lowered⟩).2 rfl⟩

end Tapir
